import Mathlib

/-!
Verification development for the Open-Assistant backend fork
(src/backend/main.py, src/backend/oasst_backend/scheduled_tasks.py,
src/backend/oasst_backend/utils/open_ai.py).

Shallow embedding conventions:
* timestamps are natural numbers counting seconds; the Python
  `timedelta.days` of `current - past` is `(current - past) / 86400`
  on naturals (truncated subtraction agrees with Python on every
  comparison `days > k`, `k ≥ 0`, used by the sources);
* database rows are Lean structures, tables are lists of rows;
* a fallible external call (HTTP, repository method outside src) is an
  oracle argument of type `Except String _`; a `try/except` arm in the
  source becomes a `match` on that oracle;
* functions of the repository that are not under src are modelled from
  the spec and carry a doc comment saying so.
-/

namespace OASST

/-- Lifecycle states of a message tree, spec section 4.3
(`message_tree_state.State` in the source imports). -/
inductive TreeState where
  | initial_prompt_review
  | growing
  | ranking
  | scoring_failed
  | scored
  | halted
deriving DecidableEq, Repr

/-- MessageTreeState row (spec section 3): one row per tree. Only the
fields touched by the sampled sources are modelled. -/
structure MessageTreeState where
  message_tree_id : Nat
  state : TreeState
  active : Bool
  won_prompt_lottery_date : Option Nat
deriving DecidableEq, Repr

/-- Aggregate review information consulted by the Tree Manager
transition predicates: the review-label count of the initial prompt,
the configured mandatory-label quorum, the aggregate quality verdict,
and whether the tree satisfies the GROWING-to-RANKING readiness
condition. These counters live outside the sampled sources; they are
inputs to the spec-modelled hooks below. -/
structure TreeAgg where
  reviewCount : Nat
  quorum : Nat
  acceptableQuality : Bool
  rankingConditionMet : Bool
deriving DecidableEq, Repr

/-- Modelled from the spec: `TreeManager.check_condition_for_prompt_lottery`
is not under src (only its caller in main.py is). Spec section 4.3: the
INITIAL_PROMPT_REVIEW to GROWING transition fires when the initial prompt
reaches the mandatory-label quorum with an acceptable quality verdict,
setting active and stamping won_prompt_lottery_date; failing quorum with a
rejecting verdict routes to HALTED. -/
def check_condition_for_prompt_lottery (agg : TreeAgg) (now : Nat)
    (m : MessageTreeState) : MessageTreeState :=
  if m.state = TreeState.initial_prompt_review ∧ agg.quorum ≤ agg.reviewCount then
    if agg.acceptableQuality then
      { m with state := TreeState.growing, active := true,
               won_prompt_lottery_date := some now }
    else
      { m with state := TreeState.halted, active := false }
  else m

/-- Modelled from the spec: `TreeManager.check_condition_for_ranking_state`
is not under src. Spec section 4.3: GROWING to RANKING fires once every
open leaf has enough sibling replies or the tree reached its size budget;
the aggregate input carries that condition as a single flag. -/
def check_condition_for_ranking_state (agg : TreeAgg)
    (m : MessageTreeState) : MessageTreeState :=
  if m.state = TreeState.growing ∧ agg.rankingConditionMet then
    { m with state := TreeState.ranking }
  else m

/-- Both Tree Manager hooks in the order main.py lines 196 to 197 calls
them: prompt lottery first, then the ranking-state check. -/
def lottery_then_ranking (agg : TreeAgg) (now : Nat)
    (m : MessageTreeState) : MessageTreeState :=
  check_condition_for_ranking_state agg
    (check_condition_for_prompt_lottery agg now m)

/-- Embeds main.py lines 198 to 204: after the hooks, label_initial_prompt
fetches the MessageTreeState row with one_or_none and, whenever the row
exists, writes state := GROWING, active := true and
won_prompt_lottery_date := now with no condition at all. -/
def force_growing (now : Nat) (mts : Option MessageTreeState) :
    Option MessageTreeState :=
  match mts with
  | none => none
  | some m => some { m with state := TreeState.growing, active := true,
                            won_prompt_lottery_date := some now }

/-- Embeds the tree-state portion of one loop iteration of
label_initial_prompt (main.py lines 196 to 204): run both Tree Manager
hooks on the tree of the processed prompt, then perform the unconditional
write of lines 198 to 204. -/
def label_initial_prompt_step (agg : TreeAgg) (now : Nat)
    (mts : Option MessageTreeState) : Option MessageTreeState :=
  match mts with
  | none => none
  | some m => force_growing now (some (lottery_then_ranking agg now m))

/-- States of one tree observed in order during a single
label_initial_prompt iteration: before the hooks, after the lottery hook,
after the ranking hook, and after the unconditional write. -/
def label_initial_prompt_states (agg : TreeAgg) (now : Nat)
    (m : MessageTreeState) : List TreeState :=
  [m.state,
   (check_condition_for_prompt_lottery agg now m).state,
   (lottery_then_ranking agg now m).state] ++
  (match label_initial_prompt_step agg now (some m) with
   | some m3 => [m3.state]
   | none => [])

/-- Position of a state along the lifecycle graph of spec section 4.3;
HALTED is terminal and reachable from every non-terminal state, so it
ranks last. -/
def stateRank : TreeState → Nat
  | TreeState.initial_prompt_review => 0
  | TreeState.growing => 1
  | TreeState.ranking => 2
  | TreeState.scoring_failed => 3
  | TreeState.scored => 4
  | TreeState.halted => 5

theorem check_lottery_preserves_id (agg : TreeAgg) (now : Nat)
    (m : MessageTreeState) :
    (check_condition_for_prompt_lottery agg now m).message_tree_id =
      m.message_tree_id := by
  unfold check_condition_for_prompt_lottery
  split_ifs <;> rfl

theorem check_ranking_preserves_id (agg : TreeAgg) (m : MessageTreeState) :
    (check_condition_for_ranking_state agg m).message_tree_id =
      m.message_tree_id := by
  unfold check_condition_for_ranking_state
  split_ifs <;> rfl

/-- C1 counterexample: with the initial prompt holding 1 review label
against a quorum of 3 (the quorum condition fails), the
label_initial_prompt iteration still moves the tree from
INITIAL_PROMPT_REVIEW to GROWING with active = true and a stamped
won_prompt_lottery_date, because main.py lines 198 to 204 perform that
write unconditionally. -/
theorem prompt_lottery_forced_without_quorum :
    label_initial_prompt_step ⟨1, 3, true, false⟩ 100
        (some ⟨7, TreeState.initial_prompt_review, false, none⟩) =
      some ⟨7, TreeState.growing, true, some 100⟩ ∧ (1 : Nat) < 3 := by
  decide

/-- C1 amended: for every tree-state row reached by a
label_initial_prompt iteration, the final state is GROWING with
active = true and won_prompt_lottery_date = now, irrespective of the
review quorum, the quality verdict, or the prior state; only the tree
identity is preserved. -/
theorem label_initial_prompt_forces_growing (agg : TreeAgg) (now : Nat)
    (m : MessageTreeState) :
    ∃ m2 : MessageTreeState,
      label_initial_prompt_step agg now (some m) = some m2 ∧
      m2.state = TreeState.growing ∧ m2.active = true ∧
      m2.won_prompt_lottery_date = some now ∧
      m2.message_tree_id = m.message_tree_id := by
  refine ⟨_, rfl, rfl, rfl, rfl, ?_⟩
  show (lottery_then_ranking agg now m).message_tree_id = m.message_tree_id
  unfold lottery_then_ranking
  rw [check_ranking_preserves_id, check_lottery_preserves_id]

/-- C2 counterexample: for a tree whose initial prompt meets the quorum
with an acceptable verdict and whose ranking condition holds, one
label_initial_prompt iteration observes the states
INITIAL_PROMPT_REVIEW, GROWING, RANKING, GROWING in this order: GROWING
is observed after RANKING, and the transition that left RANKING is the
unconditional write of main.py lines 198 to 204, not the SCORING_FAILED
recovery path. -/
theorem backward_transition_ranking_to_growing :
    label_initial_prompt_states ⟨3, 3, true, true⟩ 50
        ⟨9, TreeState.initial_prompt_review, false, none⟩ =
      [TreeState.initial_prompt_review, TreeState.growing,
       TreeState.ranking, TreeState.growing] := by
  decide

theorem ranking_hook_monotone (agg : TreeAgg) (m : MessageTreeState) :
    stateRank m.state ≤
      stateRank (check_condition_for_ranking_state agg m).state := by
  unfold check_condition_for_ranking_state
  split_ifs with h
  · rw [h.1]
    show stateRank TreeState.growing ≤ stateRank TreeState.ranking
    decide
  · exact Nat.le_refl _

theorem lottery_hook_monotone (agg : TreeAgg) (now : Nat)
    (m : MessageTreeState) :
    stateRank m.state ≤
      stateRank (check_condition_for_prompt_lottery agg now m).state := by
  unfold check_condition_for_prompt_lottery
  split_ifs with h h2
  · rw [h.1]
    show stateRank TreeState.initial_prompt_review ≤ stateRank TreeState.growing
    decide
  · rw [h.1]
    show stateRank TreeState.initial_prompt_review ≤ stateRank TreeState.halted
    decide
  · exact Nat.le_refl _

/-- C2 amended: the two Tree Manager hooks only move a tree forward along
the lifecycle graph, but the write ending every label_initial_prompt
iteration sets the state to GROWING from whatever state the hooks left,
which is a backward transition whenever that state ranks later than
GROWING (in particular RANKING to GROWING when the ranking hook fired in
the same iteration) and is not the SCORING_FAILED recovery path. -/
theorem lifecycle_monotone_except_forced_write (agg : TreeAgg) (now : Nat)
    (m : MessageTreeState) :
    stateRank m.state ≤
        stateRank (check_condition_for_prompt_lottery agg now m).state ∧
    stateRank (check_condition_for_prompt_lottery agg now m).state ≤
        stateRank (lottery_then_ranking agg now m).state ∧
    label_initial_prompt_step agg now (some m) =
      some { (lottery_then_ranking agg now m) with
               state := TreeState.growing, active := true,
               won_prompt_lottery_date := some now } := by
  refine ⟨lottery_hook_monotone agg now m, ?_, rfl⟩
  exact ranking_hook_monotone agg (check_condition_for_prompt_lottery agg now m)

/-- C3 counterexample: on a tree in the terminal SCORED state both Tree
Manager operations leave the row unchanged, yet the label_initial_prompt
iteration mutates its state, active flag and won_prompt_lottery_date:
the periodic driver writes those fields directly at main.py lines 198 to
204, outside any Tree Manager operation. -/
theorem driver_direct_write_outside_tree_manager :
    check_condition_for_prompt_lottery ⟨5, 3, true, true⟩ 77
        ⟨4, TreeState.scored, false, none⟩ =
      ⟨4, TreeState.scored, false, none⟩ ∧
    check_condition_for_ranking_state ⟨5, 3, true, true⟩
        ⟨4, TreeState.scored, false, none⟩ =
      ⟨4, TreeState.scored, false, none⟩ ∧
    label_initial_prompt_step ⟨5, 3, true, true⟩ 77
        (some ⟨4, TreeState.scored, false, none⟩) =
      some ⟨4, TreeState.growing, true, some 77⟩ ∧
    (⟨4, TreeState.growing, true, some 77⟩ : MessageTreeState) ≠
      ⟨4, TreeState.scored, false, none⟩ := by
  decide

/-- C3 amended: MessageTreeState rows are mutated not only by Tree
Manager operations; the periodic driver label_initial_prompt itself
directly writes the fields state, active and won_prompt_lottery_date of
every fetched row (main.py lines 198 to 204), keeping only the tree
identity, and this write genuinely changes every row not already in
GROWING. -/
theorem force_growing_direct_write (now : Nat) (m : MessageTreeState) :
    force_growing now (some m) =
      some { m with state := TreeState.growing, active := true,
                    won_prompt_lottery_date := some now } ∧
    (m.state ≠ TreeState.growing → force_growing now (some m) ≠ some m) := by
  constructor
  · rfl
  · intro h hEq
    apply h
    exact (congrArg MessageTreeState.state (Option.some.inj hEq)).symm

/-- Witness for the C3 amended theorem at a concrete RANKING row. -/
theorem force_growing_direct_write_witness :
    force_growing 9 (some ⟨2, TreeState.ranking, true, none⟩) ≠
      some ⟨2, TreeState.ranking, true, none⟩ :=
  (force_growing_direct_write 9 ⟨2, TreeState.ranking, true, none⟩).2 (by decide)

/-- Python-level errors visible in the sampled sources. -/
inductive PyErr where
  | typeError (msg : String)
  | apiError (msg : String)
deriving DecidableEq, Repr

/-- OpenAIAPI instance fields (open_ai.py lines 19 to 22). -/
structure OpenAIAPI where
  api_url : String
  api_key : String
deriving DecidableEq, Repr

/-- Value of `OpenAIUrl.OPEN_AI_CHAT` (open_ai.py line 11). -/
def openAiChatUrl : String := "https://api.openai.com/v1/chat/completions"

/-- Value of `OpenAIChatModel.GPT_3_5_TURBO` (open_ai.py line 15). -/
def gpt35Turbo : String := "gpt-3.5-turbo"

/-- Embeds `OpenAIAPI.__init__` (open_ai.py lines 19 to 22) applied,
Python-style, to a list of positional arguments: the parameter list
besides self is exactly [api_url], so a call supplying any other number
of positional arguments raises TypeError before the body runs. -/
def OpenAIAPI_construct (api_key : String) (args : List String) :
    Except PyErr OpenAIAPI :=
  match args with
  | [api_url] => Except.ok { api_url := api_url, api_key := api_key }
  | _ => Except.error (PyErr.typeError "init takes 2 positional arguments")

/-- Embeds `OpenAIAPI.post` (open_ai.py lines 24 to 45): performs one
HTTP request against api_url and returns the outcome produced by the
HTTP oracle (the choices of the chat completion, or an error for a
non-ok response). The first component records the requests made. -/
def OpenAIAPI_post (api : OpenAIAPI)
    (http : String → String → Except PyErr (List String)) (input : String) :
    List (String × String) × Except PyErr (List String) :=
  ([(api.api_url, input)], http api.api_url input)

/-- Embeds useOpenAIApi (scheduled_tasks.py lines 31 to 34): constructs
OpenAIAPI with the two positional arguments url and model and, only if
construction succeeds, posts the text. -/
def useOpenAIApi (api_key : String)
    (http : String → String → Except PyErr (List String))
    (text url model : String) :
    List (String × String) × Except PyErr (List String) :=
  match OpenAIAPI_construct api_key [url, model] with
  | Except.error e => ([], Except.error e)
  | Except.ok api => OpenAIAPI_post api http text

/-- Observable outcome of one run of the openai_gpt celery task: HTTP
requests performed, reply texts stored via store_text_reply, and error
log lines emitted by the except arm. -/
structure GptTaskResult where
  httpRequests : List (String × String)
  storedReplies : List String
  errorLogs : List String
deriving DecidableEq, Repr

/-- Embeds openai_gpt (scheduled_tasks.py lines 58 to 97): the try body
calls useOpenAIApi, takes the choices of the response and stores one
text reply per choice; the except arm catches every exception, logs it
and returns normally, so nothing propagates to the caller. -/
def openai_gpt (api_key : String)
    (http : String → String → Except PyErr (List String))
    (text : String) (message_id : Nat) (model : String) : GptTaskResult :=
  match useOpenAIApi api_key http text openAiChatUrl model with
  | (reqs, Except.error _) =>
      { httpRequests := reqs, storedReplies := [],
        errorLogs :=
          ["Could not response for text reply to message " ++ toString message_id] }
  | (reqs, Except.ok replies) =>
      { httpRequests := reqs, storedReplies := replies, errorLogs := [] }

/-- C4: every invocation of openai_gpt dies on the OpenAIAPI
construction, which receives two positional arguments against a
one-parameter signature: the TypeError is raised before any HTTP request
(the request log stays empty for every HTTP oracle), no assistant reply
is ever stored, and the task returns normally with the failure only
logged. -/
theorem openai_gpt_type_error_no_store (api_key : String)
    (http : String → String → Except PyErr (List String))
    (text : String) (message_id : Nat) (model : String) :
    (useOpenAIApi api_key http text openAiChatUrl model).2 =
      Except.error (PyErr.typeError "init takes 2 positional arguments") ∧
    (useOpenAIApi api_key http text openAiChatUrl model).1 = [] ∧
    openai_gpt api_key http text message_id model =
      { httpRequests := [], storedReplies := [],
        errorLogs :=
          ["Could not response for text reply to message " ++ toString message_id] } :=
  ⟨rfl, rfl, rfl⟩

/-- Toxicity score row keyed by (message_id, model), spec sections 4.2
and 6. The score value is opaque to the upsert, so it is modelled as an
integer. -/
structure ToxicityRow where
  message_id : Nat
  model : String
  score : Int
  label : String
deriving DecidableEq, Repr

/-- Key predicate of the (message_id, model) upsert key. -/
def toxKey (mid : Nat) (model : String) (r : ToxicityRow) : Bool :=
  r.message_id == mid && r.model == model

/-- Modelled from the spec: `PromptRepository.insert_toxicity` is not
under src (only its caller, the toxicity task, is). Spec sections 4.2
and 6: an idempotent upsert keyed by (message_id, model); a late or
retried scoring callback must not create duplicate rows, it replaces
the stored value. -/
def insert_toxicity (store : List ToxicityRow) (mid : Nat) (model : String)
    (score : Int) (label : String) : List ToxicityRow :=
  if store.any (toxKey mid model) then
    store.map (fun r =>
      if toxKey mid model r then
        { message_id := mid, model := model, score := score, label := label }
      else r)
  else
    store ++ [{ message_id := mid, model := model, score := score, label := label }]

theorem toxKey_self (mid : Nat) (model : String) (score : Int) (label : String) :
    toxKey mid model
      { message_id := mid, model := model, score := score, label := label } = true := by
  simp [toxKey]

theorem insert_toxicity_count (store : List ToxicityRow) (mid : Nat)
    (model : String) (score : Int) (label : String) :
    ((insert_toxicity store mid model score label).filter (toxKey mid model)).length =
      max 1 ((store.filter (toxKey mid model)).length) := by
  unfold insert_toxicity
  by_cases h : store.any (toxKey mid model)
  · rw [if_pos h]
    have hlen : ((store.map (fun r =>
        if toxKey mid model r then
          { message_id := mid, model := model, score := score, label := label }
        else r)).filter (toxKey mid model)).length =
        ((store.filter (toxKey mid model)).length) := by
      rw [← List.countP_eq_length_filter, ← List.countP_eq_length_filter,
        List.countP_map]
      apply List.countP_congr
      intro r _
      by_cases hr : toxKey mid model r
      · simp [hr, toxKey_self]
      · simp [hr]
    rw [hlen]
    have hpos : 0 < (store.filter (toxKey mid model)).length := by
      rcases List.any_eq_true.mp h with ⟨r, hr, hkey⟩
      exact List.length_pos.mpr (fun hnil =>
        (List.filter_eq_nil_iff.mp hnil r hr) hkey)
    omega
  · rw [if_neg h]
    have hnil : store.filter (toxKey mid model) = [] := by
      rw [List.filter_eq_nil_iff]
      intro r hr hkey
      exact h (List.any_eq_true.mpr ⟨r, hr, hkey⟩)
    rw [List.filter_append, hnil]
    simp [toxKey_self]

theorem insert_toxicity_latest (store : List ToxicityRow) (mid : Nat)
    (model : String) (score : Int) (label : String) :
    ∀ r ∈ insert_toxicity store mid model score label,
      toxKey mid model r = true →
      r = { message_id := mid, model := model, score := score, label := label } := by
  unfold insert_toxicity
  by_cases h : store.any (toxKey mid model)
  · rw [if_pos h]
    intro r hr hkey
    rcases List.mem_map.mp hr with ⟨a, _, ha⟩
    by_cases hak : toxKey mid model a
    · rw [if_pos hak] at ha
      exact ha.symm
    · rw [if_neg hak] at ha
      exact absurd (ha ▸ hkey) hak
  · rw [if_neg h]
    intro r hr hkey
    rcases List.mem_append.mp hr with hin | hin
    · exact absurd (List.any_eq_true.mpr ⟨r, hin, hkey⟩) h
    · simpa using hin

/-- C7: starting from any store in which the (message_id, model) key
holds at most one row, two insert_toxicity calls with that key and
different payloads leave exactly one row with the key, and every row
with the key carries the score and label of the second call: a
duplicated or retried callback never creates a second row. -/
theorem insert_toxicity_idempotent_upsert (store : List ToxicityRow)
    (mid : Nat) (model : String) (s1 : Int) (l1 : String) (s2 : Int) (l2 : String)
    (h : (store.filter (toxKey mid model)).length ≤ 1) :
    ((insert_toxicity (insert_toxicity store mid model s1 l1) mid model s2 l2).filter
        (toxKey mid model)).length = 1 ∧
    ∀ r ∈ insert_toxicity (insert_toxicity store mid model s1 l1) mid model s2 l2,
      toxKey mid model r = true → r.score = s2 ∧ r.label = l2 := by
  constructor
  · rw [insert_toxicity_count, insert_toxicity_count]
    omega
  · intro r hr hkey
    have := insert_toxicity_latest (insert_toxicity store mid model s1 l1)
      mid model s2 l2 r hr hkey
    rw [this]
    exact ⟨rfl, rfl⟩

/-- Witness for the C7 theorem: the empty store, key (1, roberta), a
first call with score 2 and a second with score 3. -/
theorem insert_toxicity_idempotent_upsert_witness :
    ((insert_toxicity (insert_toxicity [] 1 "roberta" 2 "toxic") 1 "roberta" 3 "ok").filter
        (toxKey 1 "roberta")).length = 1 :=
  (insert_toxicity_idempotent_upsert [] 1 "roberta" 2 "toxic" 3 "ok" (by decide)).1

/-- Whole-day difference between two timestamps in seconds: this is the
Python `(current - past).days` for current at or after past, and for
current before past the Python value is negative while this value is 0,
so every comparison `days > k` with `k` at least 0 used by the source
branches identically. -/
def daysBetween (current past : Nat) : Nat :=
  (current - past) / 86400

/-- User row streak fields (spec section 3): last activity date,
consecutive-day streak counter, streak anchor date. -/
structure UserRow where
  last_activity_date : Option Nat
  streak_last_day_date : Option Nat
  streak_days : Option Nat
deriving DecidableEq, Repr

/-- Embeds the per-user body of update_user_streak
(scheduled_tasks.py lines 132 to 155). The locals last_activity_date
and streak_last_day_date capture the field values before any update,
exactly as the source does at lines 133 to 134; in particular the
increment guard at line 151 reads the captured streak_last_day_date,
not the possibly reset field. The streak_days field is provably some at
the increment (line 136 normalises none to some 0), so getD 0 is only a
total rendering of the Python increment. -/
def update_user_streak_user (current : Nat) (u0 : UserRow) : UserRow :=
  let last_activity_date := u0.last_activity_date
  let streak_last_day_date := u0.streak_last_day_date
  let u1 := if u0.streak_days = none then { u0 with streak_days := some 0 } else u0
  let u2 := match last_activity_date with
    | none => u1
    | some lad =>
        if 1 < daysBetween current lad ∨ u1.streak_days = none then
          { u1 with streak_days := some 0, streak_last_day_date := some current }
        else u1
  match streak_last_day_date with
  | none => u2
  | some sldd =>
      if 0 < daysBetween current sldd then
        { u2 with streak_days := some (u2.streak_days.getD 0 + 1),
                  streak_last_day_date := some current }
      else u2

/-- Embeds update_user_streak (scheduled_tasks.py lines 119 to 162):
gate on the whole-day difference between the current time and the
module-level startup_time; when the gate passes, apply the per-user
body to every user, committing once per user; otherwise touch nothing.
Returns the user table and the number of commits. -/
def update_user_streak_pass (current startup : Nat) (users : List UserRow) :
    List UserRow × Nat :=
  if 0 < daysBetween current startup then
    (users.map (update_user_streak_user current), users.length)
  else
    (users, 0)

/-- C8 counterexample: at exactly 86400 seconds (exactly 24 hours, not
more) after process start, the pass already commits and updates a user
whose streak_days is none, because the source gate is
`timedelta.days > 0`, which holds as soon as one full day has elapsed. -/
theorem update_user_streak_fires_at_exactly_one_day :
    update_user_streak_pass 86400 0 [⟨none, none, none⟩] =
      ([⟨none, none, some 0⟩], 1) ∧
    (⟨none, none, some 0⟩ : UserRow) ≠ ⟨none, none, none⟩ ∧
    ¬ 86400 - 0 > 86400 := by
  decide

/-- C8 amended: when fewer than one full day has elapsed since the
module-level startup_time, the pass returns every user row unchanged
and commits nothing; it performs any commit or mutation only when at
least 24 hours (one full whole day, the source gate timedelta.days > 0)
have elapsed since process start. -/
theorem update_user_streak_gate (current startup : Nat) (users : List UserRow) :
    (current - startup < 86400 →
      update_user_streak_pass current startup users = (users, 0)) ∧
    ((update_user_streak_pass current startup users).2 ≠ 0 →
      86400 ≤ current - startup) ∧
    (86400 ≤ current - startup →
      update_user_streak_pass current startup users =
        (users.map (update_user_streak_user current), users.length)) := by
  have hdays : 0 < daysBetween current startup ↔ 86400 ≤ current - startup := by
    unfold daysBetween
    constructor
    · intro hpos
      by_contra hlt
      rw [Nat.div_eq_of_lt (by omega)] at hpos
      exact Nat.lt_irrefl 0 hpos
    · intro hge
      exact Nat.div_pos hge (by omega)
  refine ⟨?_, ?_, ?_⟩
  · intro hlt
    unfold update_user_streak_pass
    rw [if_neg (fun hpos => absurd (hdays.mp hpos) (by omega))]
  · intro hne
    unfold update_user_streak_pass at hne
    by_cases hpos : 0 < daysBetween current startup
    · exact hdays.mp hpos
    · rw [if_neg hpos] at hne
      exact absurd rfl hne
  · intro hge
    unfold update_user_streak_pass
    rw [if_pos (hdays.mpr hge)]

/-- Witness for the C8 amended theorem: below one day nothing happens;
past one day the pass is the mapped per-user body; a nonzero commit
count implies a full day elapsed. -/
theorem update_user_streak_gate_witness :
    update_user_streak_pass 100 0 [] = ([], 0) ∧
    update_user_streak_pass 200000 0 [] = ([], 0) ∧
    (86400 : Nat) ≤ 200000 - 0 := by
  refine ⟨(update_user_streak_gate 100 0 []).1 (by decide), ?_, ?_⟩
  · exact (update_user_streak_gate 200000 0 []).2.2 (by decide)
  · exact (update_user_streak_gate 200000 0
      [⟨none, none, none⟩]).2.1 (by decide)

/-- C10: evaluation of the per-user body at the failing input of the
claim. Current time is day 10; the user completed the last task at day
7 (three whole days ago, so the reset branch fires and writes
streak_last_day_date := now) and has streak anchor day 8 with streak 5.
The increment guard then reads the day-8 value captured before the
reset, sees two whole days, and also fires: the user ends the pass with
streak_days = 1, not the 0 the reset left. -/
theorem update_user_streak_double_fire_eval :
    update_user_streak_user 864000
        ⟨some 604800, some 691200, some 5⟩ =
      ⟨some 604800, some 864000, some 1⟩ ∧
    1 < daysBetween 864000 604800 ∧
    0 < daysBetween 864000 691200 := by
  decide

/-- Message row fields consulted by the sampled drivers (spec section
3). replyCount stands for the number of existing replies under the
message; no sampled query reads it, which is what C9 asserts. -/
structure Message where
  id : Nat
  message_tree_id : Nat
  text : String
  lang : String
  role : String
  replyCount : Nat
deriving DecidableEq, Repr

/-- Task ledger row as issued by label_initial_prompt. -/
structure TaskRec where
  task_type : String
  message_id : Nat
deriving DecidableEq, Repr

/-- Stored label row: the bot review of one prompt. -/
structure LabelRec where
  message_id : Nat
  quality : Nat
deriving DecidableEq, Repr

/-- Store shared by the label_initial_prompt pass: issued tasks, stored
labels and the MessageTreeState table. -/
structure BackendState where
  tasks : List TaskRec
  labels : List LabelRec
  trees : List MessageTreeState
deriving DecidableEq, Repr

/-- Effects of one successful label_initial_prompt iteration on prompt p
(main.py lines 167 to 204): store a LabelInitialPromptTask, store the
fixed bot labels with quality 1, then run the hooks and the
unconditional write on the tree-state row of the tree of p. -/
def apply_prompt_effects (agg : TreeAgg) (now : Nat) (p : Message)
    (st : BackendState) : BackendState :=
  { tasks := st.tasks ++ [{ task_type := "label_initial_prompt", message_id := p.id }],
    labels := st.labels ++ [{ message_id := p.id, quality := 1 }],
    trees := st.trees.map (fun t =>
      if t.message_tree_id == p.message_tree_id then
        match label_initial_prompt_step agg now (some t) with
        | some t2 => t2
        | none => t
      else t) }

/-- Info log line emitted for every prompt before its try block
(main.py line 165). -/
def labelingLog (i : Nat) : String :=
  "Labeling prompt " ++ toString i

/-- Error log line emitted by the except arm (main.py line 207). -/
def labelFailedLog (i : Nat) (e : String) : String :=
  "Failed to label prompt " ++ toString i ++ " by " ++ e

/-- Embeds the loop of label_initial_prompt (main.py lines 164 to 207):
prompts are processed in order; each iteration first logs, then runs its
try body, whose external failures are given by the oracle f; an
exception is caught, logged, and the loop continues with the next
prompt. A failing iteration is modelled as raising before its effects;
the claims proved here do not depend on the partial effects of a failed
iteration. -/
def label_prompts (agg : TreeAgg) (now : Nat)
    (f : Message → Except String Unit) :
    BackendState → List Message → BackendState × List String
  | st, [] => (st, [])
  | st, p :: rest =>
    match f p with
    | Except.ok _ =>
        let next := label_prompts agg now f (apply_prompt_effects agg now p st) rest
        (next.1, labelingLog p.id :: next.2)
    | Except.error e =>
        let next := label_prompts agg now f st rest
        (next.1, labelingLog p.id :: labelFailedLog p.id e :: next.2)

/-- Embeds label_initial_prompt as a whole pass (main.py lines 152 to
207): query_prompts_need_review may return none (main.py line 161
returns immediately) or a list of prompts to process. -/
def label_initial_prompt_pass (agg : TreeAgg) (now : Nat)
    (prompts : Option (List Message)) (f : Message → Except String Unit)
    (st : BackendState) : BackendState × List String :=
  match prompts with
  | none => (st, [])
  | some l => label_prompts agg now f st l

/-- C6: label_initial_prompt treats a none result of
query_prompts_need_review and an empty list identically: the pass
leaves the whole backend store untouched, issues no task, stores no
label, mutates no tree state and logs nothing. -/
theorem label_initial_prompt_none_empty_noop (agg : TreeAgg) (now : Nat)
    (f : Message → Except String Unit) (st : BackendState) :
    label_initial_prompt_pass agg now none f st =
      label_initial_prompt_pass agg now (some []) f st ∧
    label_initial_prompt_pass agg now none f st = (st, []) ∧
    (label_initial_prompt_pass agg now none f st).1.tasks = st.tasks ∧
    (label_initial_prompt_pass agg now none f st).1.labels = st.labels ∧
    (label_initial_prompt_pass agg now none f st).1.trees = st.trees :=
  ⟨rfl, rfl, rfl, rfl, rfl⟩

/-- Outcome of one run of a periodic driver: either it returns to the
scheduling wrapper normally, having logged, or an exception escapes its
body. -/
inductive DriverOutcome where
  | completed (logs : List String)
  | raised (err : String)
deriving DecidableEq, Repr

/-- Embeds update_leader_board_day (main.py lines 239 to 247): the body
is one try block; any exception of the stats update is logged. -/
def update_leader_board_day (work : Except String Unit) : DriverOutcome :=
  match work with
  | Except.ok _ => DriverOutcome.completed []
  | Except.error _ =>
      DriverOutcome.completed ["Error during leaderboard update (daily)"]

/-- Embeds update_leader_board_week (main.py lines 250 to 258). -/
def update_leader_board_week (work : Except String Unit) : DriverOutcome :=
  match work with
  | Except.ok _ => DriverOutcome.completed []
  | Except.error _ =>
      DriverOutcome.completed ["Error during user states update (weekly)"]

/-- Embeds update_leader_board_month (main.py lines 261 to 269). -/
def update_leader_board_month (work : Except String Unit) : DriverOutcome :=
  match work with
  | Except.ok _ => DriverOutcome.completed []
  | Except.error _ =>
      DriverOutcome.completed ["Error during user states update (monthly)"]

/-- Embeds update_leader_board_total (main.py lines 272 to 280). -/
def update_leader_board_total (work : Except String Unit) : DriverOutcome :=
  match work with
  | Except.ok _ => DriverOutcome.completed []
  | Except.error _ =>
      DriverOutcome.completed ["Error during user states update (total)"]

/-- Embeds update_cached_stats (main.py lines 291 to 299). -/
def update_cached_stats (work : Except String Unit) : DriverOutcome :=
  match work with
  | Except.ok _ => DriverOutcome.completed []
  | Except.error _ =>
      DriverOutcome.completed ["Error during cached stats update"]

/-- Embeds cronjob_delete_expired_tasks (main.py lines 283 to 288): it
calls delete_expired_tasks then halt_prompts_of_disabled_users with no
exception handler at all, so any exception of either callee propagates
to the scheduling wrapper. -/
def cronjob_delete_expired_tasks (w1 w2 : Except String Nat) : DriverOutcome :=
  match w1 with
  | Except.error e => DriverOutcome.raised e
  | Except.ok _ =>
    match w2 with
    | Except.error e => DriverOutcome.raised e
    | Except.ok _ => DriverOutcome.completed []

/-- Enqueued openai_gpt job (main.py lines 225 to 231). -/
structure GptJob where
  text : String
  message_id : Nat
  model : String
deriving DecidableEq, Repr

/-- Embeds the query of assitant_reply (main.py lines 216 to 219): all
messages with lang ko and role prompter, with no condition on existing
replies. -/
def assitant_reply_query (msgs : List Message) : List Message :=
  msgs.filter (fun m => m.lang == "ko" && m.role == "prompter")

/-- Job built by openai_gpt.delay in the loop body. -/
def mkGptJob (m : Message) : GptJob :=
  { text := m.text, message_id := m.id, model := gpt35Turbo }

/-- Embeds the loop of assitant_reply (main.py lines 224 to 231): it
iterates over the slice of the query result starting at index one, so
the first element is never enqueued. -/
def assitant_reply_jobs (msgs : List Message) : List GptJob :=
  ((assitant_reply_query msgs).drop 1).map mkGptJob

/-- Embeds assitant_reply at driver level (main.py lines 209 to 235):
the body has no try block, so a query exception propagates to the
scheduling wrapper; otherwise the loop enqueues the jobs. -/
def assitant_reply_run (queryResult : Except String (List Message)) :
    Except String (List GptJob) :=
  match queryResult with
  | Except.error e => Except.error e
  | Except.ok msgs => Except.ok (assitant_reply_jobs msgs)

/-- Embeds the toxicity task (scheduled_tasks.py lines 36 to 56): the
HuggingFace call outcome is an oracle; on success the score is upserted
via insert_toxicity and committed; the except arm catches every
exception and logs it, so nothing propagates and on failure the store
is untouched. -/
def toxicity_task (store : List ToxicityRow) (message_id : Nat)
    (model_name : String) (hf : Except String (Int × String)) :
    List ToxicityRow × List String :=
  match hf with
  | Except.error e =>
      (store, ["Could not compute toxicity for text reply, error " ++ e])
  | Except.ok sl =>
      (insert_toxicity store message_id model_name sl.1 sl.2, [])

/-- Embedding row keyed by (message_id, model). -/
structure EmbeddingRow where
  message_id : Nat
  model : String
  embedding : List Int
deriving DecidableEq, Repr

/-- Modelled from the spec: `PromptRepository.insert_message_embedding`
is not under src (only its caller, hf_feature_extraction, is). Spec
sections 4.2 and 6: an idempotent upsert keyed by (message_id, model). -/
def insert_message_embedding (store : List EmbeddingRow) (mid : Nat)
    (model : String) (emb : List Int) : List EmbeddingRow :=
  if store.any (fun r => r.message_id == mid && r.model == model) then
    store.map (fun r =>
      if r.message_id == mid && r.model == model then
        { message_id := mid, model := model, embedding := emb }
      else r)
  else
    store ++ [{ message_id := mid, model := model, embedding := emb }]

/-- Embeds hf_feature_extraction (scheduled_tasks.py lines 99 to 116):
the except arm catches every exception and logs it; on failure the
store is untouched and nothing propagates. -/
def hf_feature_extraction_task (store : List EmbeddingRow) (message_id : Nat)
    (model_name : String) (hf : Except String (List Int)) :
    List EmbeddingRow × List String :=
  match hf with
  | Except.error e =>
      (store, ["Could not extract embedding for text reply, error " ++ e])
  | Except.ok emb =>
      (insert_message_embedding store message_id model_name emb, [])

/-- Embeds the update_user_streak task boundary (scheduled_tasks.py
lines 119 to 162): the whole body sits in one try block; the oracle
models exceptions of the database calls in the body, a failing body is
modelled as raising before any mutation; the except arm logs and
returns normally. -/
def update_user_streak_task (current startup : Nat) (users : List UserRow)
    (body : Except String Unit) : (List UserRow × Nat) × List String :=
  match body with
  | Except.error e => ((users, 0), ["update_user_streak error " ++ e])
  | Except.ok _ => (update_user_streak_pass current startup users, [])

/-- C5 counterexample: cronjob_delete_expired_tasks has no exception
handler, so an exception raised by delete_expired_tasks propagates to
the caller instead of being caught and logged. -/
theorem cronjob_propagates_exception :
    cronjob_delete_expired_tasks (Except.error "db failure") (Except.ok 0) =
      DriverOutcome.raised "db failure" := rfl

theorem label_prompts_logs_every_prompt (agg : TreeAgg) (now : Nat)
    (f : Message → Except String Unit) :
    ∀ (l : List Message) (st : BackendState) (p : Message), p ∈ l →
      labelingLog p.id ∈ (label_prompts agg now f st l).2 := by
  intro l
  induction l with
  | nil => intro st p hp; cases hp
  | cons q rest ih =>
      intro st p hp
      rcases List.mem_cons.mp hp with hpq | hpr
      · subst hpq
        unfold label_prompts
        cases f p with
        | ok _ => exact List.mem_cons_self _ _
        | error e => exact List.mem_cons_self _ _
      · unfold label_prompts
        cases f q with
        | ok _ =>
            exact List.mem_cons_of_mem _
              (ih (apply_prompt_effects agg now q st) p hpr)
        | error e =>
            exact List.mem_cons_of_mem _
              (List.mem_cons_of_mem _ (ih st p hpr))

/-- C5 amended: every sampled periodic driver and asynchronous task
except cronjob_delete_expired_tasks and assitant_reply catches an
unexpected exception of its unit of work and surfaces it as a log while
returning normally; label_initial_prompt attempts every prompt of the
pass even when earlier prompts fail (each prompt is logged regardless
of the oracle); cronjob_delete_expired_tasks and assitant_reply have no
handler and propagate the exception to the scheduling wrapper. -/
theorem failure_isolation_amended (e : String) (w2 : Except String Nat)
    (store : List ToxicityRow) (estore : List EmbeddingRow)
    (mid : Nat) (mname : String) (current startup : Nat)
    (users : List UserRow) (api_key text : String)
    (http : String → String → Except PyErr (List String)) (model : String)
    (agg : TreeAgg) (now : Nat) (l : List Message)
    (f : Message → Except String Unit) (st : BackendState) :
    (∀ p ∈ l, labelingLog p.id ∈
        (label_initial_prompt_pass agg now (some l) f st).2) ∧
    update_leader_board_day (Except.error e) =
      DriverOutcome.completed ["Error during leaderboard update (daily)"] ∧
    update_leader_board_week (Except.error e) =
      DriverOutcome.completed ["Error during user states update (weekly)"] ∧
    update_leader_board_month (Except.error e) =
      DriverOutcome.completed ["Error during user states update (monthly)"] ∧
    update_leader_board_total (Except.error e) =
      DriverOutcome.completed ["Error during user states update (total)"] ∧
    update_cached_stats (Except.error e) =
      DriverOutcome.completed ["Error during cached stats update"] ∧
    toxicity_task store mid mname (Except.error e) =
      (store, ["Could not compute toxicity for text reply, error " ++ e]) ∧
    hf_feature_extraction_task estore mid mname (Except.error e) =
      (estore, ["Could not extract embedding for text reply, error " ++ e]) ∧
    update_user_streak_task current startup users (Except.error e) =
      ((users, 0), ["update_user_streak error " ++ e]) ∧
    (openai_gpt api_key http text mid model).errorLogs =
      ["Could not response for text reply to message " ++ toString mid] ∧
    cronjob_delete_expired_tasks (Except.error e) w2 =
      DriverOutcome.raised e ∧
    assitant_reply_run (Except.error e) = Except.error e := by
  refine ⟨?_, rfl, rfl, rfl, rfl, rfl, rfl, rfl, rfl, rfl, rfl, rfl⟩
  intro p hp
  exact label_prompts_logs_every_prompt agg now f l st p hp

/-- Witness for the C5 amended theorem: a two-prompt pass whose first
prompt fails still logs and attempts the second prompt. -/
theorem failure_isolation_amended_witness :
    labelingLog 8 ∈
      (label_initial_prompt_pass ⟨0, 3, true, false⟩ 0
        (some [⟨5, 5, "a", "ko", "prompter", 0⟩, ⟨8, 8, "b", "ko", "prompter", 0⟩])
        (fun m => if m.id == 5 then Except.error "boom" else Except.ok ())
        ⟨[], [], []⟩).2 :=
  (failure_isolation_amended "x" (Except.ok 0) [] [] 0 "m" 0 0 [] "k" "t"
      (fun _ _ => Except.error (PyErr.apiError "none")) "g" ⟨0, 3, true, false⟩ 0
      [⟨5, 5, "a", "ko", "prompter", 0⟩, ⟨8, 8, "b", "ko", "prompter", 0⟩]
      (fun m => if m.id == 5 then Except.error "boom" else Except.ok ())
      ⟨[], [], []⟩).1
    ⟨8, 8, "b", "ko", "prompter", 0⟩ (by decide)

/-- C9: the assitant_reply driver queries exactly the messages with
language ko and role prompter, with membership independent of how many
replies a message already has, and enqueues one openai_gpt job per
queried message except the element at index zero, which is always
skipped: job i is built from queried message i + 1. -/
theorem assitant_reply_spec (msgs : List Message) :
    (∀ m ∈ msgs,
      (m ∈ assitant_reply_query msgs ↔ m.lang = "ko" ∧ m.role = "prompter")) ∧
    (assitant_reply_jobs msgs).length = (assitant_reply_query msgs).length - 1 ∧
    (∀ i : Nat, (assitant_reply_jobs msgs)[i]? =
      ((assitant_reply_query msgs)[i + 1]?).map mkGptJob) := by
  refine ⟨?_, ?_, ?_⟩
  · intro m hm
    simp [assitant_reply_query, List.mem_filter, hm]
  · simp [assitant_reply_jobs]
  · intro i
    simp [assitant_reply_jobs, List.getElem?_drop, Nat.add_comm]

/-- Witness for the C9 theorem on a concrete message list: the second
Korean prompter message (which already has five replies) is enqueued as
job zero, while the first is skipped. -/
theorem assitant_reply_spec_witness :
    (assitant_reply_jobs
        [⟨1, 1, "a", "ko", "prompter", 0⟩,
         ⟨2, 2, "b", "en", "prompter", 0⟩,
         ⟨3, 3, "c", "ko", "assistant", 0⟩,
         ⟨4, 4, "d", "ko", "prompter", 5⟩])[0]? =
      ((assitant_reply_query
        [⟨1, 1, "a", "ko", "prompter", 0⟩,
         ⟨2, 2, "b", "en", "prompter", 0⟩,
         ⟨3, 3, "c", "ko", "assistant", 0⟩,
         ⟨4, 4, "d", "ko", "prompter", 5⟩])[1]?).map mkGptJob :=
  (assitant_reply_spec
    [⟨1, 1, "a", "ko", "prompter", 0⟩,
     ⟨2, 2, "b", "en", "prompter", 0⟩,
     ⟨3, 3, "c", "ko", "assistant", 0⟩,
     ⟨4, 4, "d", "ko", "prompter", 5⟩]).2.2 0

end OASST
